import Mathlib

/-!
Verification of the refract.trade trading-system core against its
natural-language specification.  All definitions are shallow embeddings of
the Python source under `trading-system/`:

* `adapters/brokers/alpaca.py` — vendor order-status normalization,
* `domain/models.py` — the `TradeSignal` construction-time invariants,
* `engines/risk/engine.py` — the risk rule pipeline and recent-signal buffer,
* `engines/strategy/ma_crossover.py` — the moving-average crossover strategy,
* `engines/execution/engine.py` — the execution engine's order handling.

Machine floats and `Decimal` values are modelled as rationals; `datetime`
values as rational second counts; Python dicts as association lists or as
total functions with an explicit default.
-/

namespace RefractTrade

/-- Internal order status, from `domain/models.py` (`class OrderStatus`). -/
inductive OrderStatus where
  | PENDING
  | SUBMITTED
  | FILLED
  | PARTIALLY_FILLED
  | CANCELLED
  | REJECTED
deriving DecidableEq, Repr

/-- Trade side, from `domain/models.py` (`class Side`). -/
inductive Side where
  | BUY
  | SELL
deriving DecidableEq, Repr

/-- The `.value` payload of each `Side` enum member. -/
def Side.value : Side → String
  | .BUY => "buy"
  | .SELL => "sell"

/-- Python `str.lower()` restricted to its ASCII action, which is all the
vendor-status keys exercise. -/
def pyLower (s : String) : String := String.mk (s.data.map Char.toLower)

/-- `AlpacaBrokerAdapter._convert_order_status` from
`adapters/brokers/alpaca.py`: a dictionary lookup on the lower-cased vendor
status, with default `OrderStatus.PENDING`.  The dictionary keys are
pairwise distinct, so the if-chain is an exact model of `dict.get`. -/
def _convert_order_status (alpaca_status : String) : OrderStatus :=
  let l := pyLower alpaca_status
  if l = "new" then .SUBMITTED
  else if l = "partially_filled" then .PARTIALLY_FILLED
  else if l = "filled" then .FILLED
  else if l = "done_for_day" then .CANCELLED
  else if l = "canceled" then .CANCELLED
  else if l = "expired" then .CANCELLED
  else if l = "replaced" then .CANCELLED
  else if l = "pending_cancel" then .PENDING
  else if l = "pending_replace" then .PENDING
  else if l = "accepted" then .SUBMITTED
  else if l = "pending_new" then .PENDING
  else if l = "accepted_for_bidding" then .SUBMITTED
  else if l = "stopped" then .CANCELLED
  else if l = "rejected" then .REJECTED
  else if l = "suspended" then .CANCELLED
  else if l = "calculated" then .SUBMITTED
  else .PENDING

/-- The sixteen vendor-status keys of the normalization dictionary, in the
order they appear in `_convert_order_status`. -/
def vendor_status_keys : List String :=
  ["new", "partially_filled", "filled", "done_for_day", "canceled",
   "expired", "replaced", "pending_cancel", "pending_replace", "accepted",
   "pending_new", "accepted_for_bidding", "stopped", "rejected",
   "suspended", "calculated"]

/-- `TradeSignal` from `domain/models.py`, with the fields the core logic
reads.  `confidence` and prices are rationals, `created_at` is a rational
timestamp in seconds. -/
structure TradeSignal where
  id : String
  symbol : String
  side : Side
  qty : Int
  confidence : ℚ
  created_at : ℚ
  price : Option ℚ := none
deriving DecidableEq, Repr

/-- `TradeSignal.__post_init__` from `domain/models.py`: the dataclass
validation run at construction.  Returns the signal on success and the
`ValueError` message raised otherwise, with the checks in source order. -/
def TradeSignal.post_init (s : TradeSignal) : Except String TradeSignal :=
  if ¬ (0 ≤ s.confidence ∧ s.confidence ≤ 1) then
    .error "Confidence must be between 0.0 and 1.0"
  else if s.qty ≤ 0 then
    .error "Quantity must be positive"
  else
    match s.price with
    | some p => if p ≤ 0 then .error "Price must be positive" else .ok s
    | none => .ok s

/-- Success of `TradeSignal.post_init` is exactly the conjunction of the
three dataclass invariants. -/
theorem post_init_ok_iff (s : TradeSignal) :
    s.post_init = .ok s ↔
      (0 ≤ s.confidence ∧ s.confidence ≤ 1 ∧ 0 < s.qty ∧ ∀ p ∈ s.price, 0 < p) := by
  unfold TradeSignal.post_init
  rcases hp : s.price with _ | p <;>
    simp only [hp, Option.mem_def, Option.some.injEq, forall_eq,
      Option.mem_some_iff] <;>
    split_ifs with h1 h2 <;>
    simp_all

/-- `TradeSignal.post_init` never succeeds with a value other than its
input: it either returns the signal or an error message. -/
theorem post_init_ok_or_error (s : TradeSignal) :
    s.post_init = .ok s ∨ ∃ m, s.post_init = .error m := by
  unfold TradeSignal.post_init
  rcases s.price with _ | p
  · split_ifs <;> simp
  · by_cases hp : p ≤ 0 <;> split_ifs <;> simp_all

/-- C9: TradeSignal construction succeeds for confidence = 0.0, for
confidence = 1.0, and for qty = 1, and raises an error exactly when
confidence < 0 or confidence > 1, or qty ≤ 0 (so qty = 0 raises), or a
price is present with price ≤ 0. -/
theorem C9_trade_signal_construction :
    (∀ s : TradeSignal,
        s.post_init = .ok s ↔
          (0 ≤ s.confidence ∧ s.confidence ≤ 1 ∧ 0 < s.qty ∧ ∀ p ∈ s.price, 0 < p)) ∧
    (∀ s : TradeSignal, s.post_init ≠ .ok s → ∃ m, s.post_init = .error m) ∧
    (TradeSignal.post_init ⟨"s0", "AAPL", .BUY, 1, 0, 0, none⟩ =
      .ok ⟨"s0", "AAPL", .BUY, 1, 0, 0, none⟩) ∧
    (TradeSignal.post_init ⟨"s1", "AAPL", .BUY, 1, 1, 0, none⟩ =
      .ok ⟨"s1", "AAPL", .BUY, 1, 1, 0, none⟩) ∧
    (TradeSignal.post_init ⟨"s2", "AAPL", .BUY, 0, 1/2, 0, none⟩ =
      .error "Quantity must be positive") := by
  refine ⟨post_init_ok_iff, fun s h => ?_, ?_, ?_, ?_⟩
  · rcases post_init_ok_or_error s with h' | h'
    · exact absurd h' h
    · exact h'
  · norm_num [TradeSignal.post_init]
  · norm_num [TradeSignal.post_init]
  · norm_num [TradeSignal.post_init]

/-- C9 witness: the success/error characterization applied to a concrete
signal with a present, positive price. -/
theorem C9_trade_signal_construction_witness :
    (TradeSignal.post_init ⟨"w", "AAPL", .SELL, 2, 1/2, 0, some 10⟩ =
        .ok ⟨"w", "AAPL", .SELL, 2, 1/2, 0, some 10⟩) ↔
      ((0 : ℚ) ≤ 1/2 ∧ (1/2 : ℚ) ≤ 1 ∧ (0 : ℤ) < 2 ∧
        ∀ p ∈ (some (10 : ℚ) : Option ℚ), 0 < p) :=
  C9_trade_signal_construction.1 ⟨"w", "AAPL", .SELL, 2, 1/2, 0, some 10⟩

/-- C1 counterexample: the source maps the vendor status `pending_new` to
`OrderStatus.PENDING`, not to `OrderStatus.SUBMITTED` as the spec's table
states. -/
theorem C1_counterexample :
    _convert_order_status "pending_new" = OrderStatus.PENDING ∧
      _convert_order_status "pending_new" ≠ OrderStatus.SUBMITTED := by
  constructor <;> decide

/-- C1 (amended): the normalization table as implemented — the claim's
table with the single change that `pending_new` maps to PENDING instead of
SUBMITTED. -/
theorem C1_status_normalization_table :
    _convert_order_status "new" = .SUBMITTED ∧
    _convert_order_status "accepted" = .SUBMITTED ∧
    _convert_order_status "accepted_for_bidding" = .SUBMITTED ∧
    _convert_order_status "calculated" = .SUBMITTED ∧
    _convert_order_status "pending_new" = .PENDING ∧
    _convert_order_status "partially_filled" = .PARTIALLY_FILLED ∧
    _convert_order_status "filled" = .FILLED ∧
    _convert_order_status "canceled" = .CANCELLED ∧
    _convert_order_status "expired" = .CANCELLED ∧
    _convert_order_status "replaced" = .CANCELLED ∧
    _convert_order_status "stopped" = .CANCELLED ∧
    _convert_order_status "done_for_day" = .CANCELLED ∧
    _convert_order_status "suspended" = .CANCELLED ∧
    _convert_order_status "rejected" = .REJECTED ∧
    _convert_order_status "pending_cancel" = .PENDING ∧
    _convert_order_status "pending_replace" = .PENDING := by
  decide

/-- C10: vendor-status normalization is total — any input whose lowercased
form is not one of the sixteen table keys normalizes to PENDING. -/
theorem C10_status_normalization_total (s : String)
    (h : pyLower s ∉ vendor_status_keys) :
    _convert_order_status s = OrderStatus.PENDING := by
  simp only [vendor_status_keys, List.mem_cons, List.not_mem_nil, or_false,
    not_or] at h
  obtain ⟨h1, h2, h3, h4, h5, h6, h7, h8, h9, h10, h11, h12, h13, h14, h15, h16⟩ := h
  simp only [_convert_order_status]
  rw [if_neg h1, if_neg h2, if_neg h3, if_neg h4, if_neg h5, if_neg h6,
    if_neg h7, if_neg h8, if_neg h9, if_neg h10, if_neg h11, if_neg h12,
    if_neg h13, if_neg h14, if_neg h15, if_neg h16]

/-- C10 witness: a vendor status outside the table normalizes to PENDING. -/
theorem C10_status_normalization_total_witness :
    pyLower "Held_For_Review" ∉ vendor_status_keys ∧
      _convert_order_status "Held_For_Review" = OrderStatus.PENDING :=
  ⟨by decide, C10_status_normalization_total "Held_For_Review" (by decide)⟩

/-- `AccountSnapshot` from `domain/models.py` (timestamp omitted; no rule
reads it). -/
structure AccountSnapshot where
  equity : ℚ
  buying_power : ℚ
  cash : ℚ
  day_trades_remaining : Int
deriving DecidableEq, Repr

/-- `PositionSnapshot` from `domain/models.py` (timestamp omitted; no rule
reads it). -/
structure PositionSnapshot where
  symbol : String
  qty : Int
  avg_price : ℚ
  unrealized_pl : ℚ
  exposure_pct : ℚ
deriving DecidableEq, Repr

/-- The ambient wall clock read by `MarketHoursRule` via `datetime.now()`:
`weekday` is 0 = Monday … 6 = Sunday, `hour` is 0–23. -/
structure Clock where
  weekday : ℕ
  hour : ℕ
deriving DecidableEq, Repr

/-- A risk rule from `engines/risk/engine.py`: a name plus the `validate`
method, returning `(is_valid, rejection_reason)`.  The ambient clock is
passed explicitly; only `market_hours` reads it. -/
structure RiskRule where
  name : String
  validate : TradeSignal → AccountSnapshot → List PositionSnapshot →
    List TradeSignal → Clock → Bool × Option String

/-- `MaxPositionSizeRule.validate`: estimated position value at the $100
placeholder price must not exceed `max_position_pct` of account equity. -/
def max_position_size_rule (max_position_pct : ℚ) : RiskRule where
  name := "max_position_size"
  validate := fun signal account _ _ _ =>
    let estimated_price : ℚ := 100
    let position_value : ℚ := signal.qty * estimated_price
    let position_pct : ℚ := position_value / account.equity
    if position_pct > max_position_pct then
      (false, some ("Position size " ++ toString position_pct ++
        " exceeds maximum " ++ toString max_position_pct ++ " of account equity"))
    else
      (true, none)

/-- `MaxPositionsPerSymbolRule.validate`: fewer than `max_positions`
existing non-zero positions in the signal's symbol. -/
def max_positions_per_symbol_rule (max_positions : ℕ) : RiskRule where
  name := "max_positions_per_symbol"
  validate := fun signal _ positions _ _ =>
    let symbol_positions :=
      positions.filter (fun p => decide (p.symbol = signal.symbol ∧ p.qty ≠ 0))
    if symbol_positions.length ≥ max_positions then
      (false, some ("Symbol " ++ signal.symbol ++ " already has " ++
        toString symbol_positions.length ++ " positions (max: " ++
        toString max_positions ++ ")"))
    else
      (true, none)

/-- `MinConfidenceRule.validate`: signal confidence at least
`min_confidence`. -/
def min_confidence_rule (min_confidence : ℚ) : RiskRule where
  name := "min_confidence"
  validate := fun signal _ _ _ _ =>
    if signal.confidence < min_confidence then
      (false, some ("Signal confidence " ++ toString signal.confidence ++
        " below minimum " ++ toString min_confidence))
    else
      (true, none)

/-- `DuplicateSignalRule.validate`: no recent signal with the same symbol
and side strictly after `created_at` minus the window
(`time_window_minutes` minutes, in seconds). -/
def duplicate_signal_rule (time_window_minutes : ℚ) : RiskRule where
  name := "duplicate_signal"
  validate := fun signal _ _ recent_signals _ =>
    let time_window : ℚ := time_window_minutes * 60
    let cutoff_time := signal.created_at - time_window
    if recent_signals.any (fun r =>
        decide (r.symbol = signal.symbol ∧ r.side = signal.side ∧
          r.created_at > cutoff_time)) then
      (false, some ("Duplicate signal for " ++ signal.symbol ++ " " ++
        signal.side.value ++ " within " ++ toString time_window_minutes ++
        " minutes"))
    else
      (true, none)

/-- `MarketHoursRule.validate`: weekday and hour in `[9, 16)` on the
ambient clock. -/
def market_hours_rule : RiskRule where
  name := "market_hours"
  validate := fun _ _ _ _ now =>
    if now.weekday ≥ 5 then
      (false, some "Market is closed (weekend)")
    else if now.hour < 9 ∨ now.hour ≥ 16 then
      (false, some "Market is closed (outside trading hours)")
    else
      (true, none)

/-- The per-rule outcome recorded under `rule_{name}` in
`risk_check_metadata`. -/
structure RuleOutcome where
  rule : String
  passed : Bool
  reason : Option String
deriving DecidableEq, Repr

/-- The three shapes of `risk_check_metadata` produced by
`RiskEngine.validate_signal`. -/
inductive RiskMetadata where
  | engine_disabled
  | rule_results (results : List RuleOutcome)
  | validation_error (msg : String)
deriving DecidableEq, Repr

/-- `ApprovedTrade` from `domain/models.py` (timestamp omitted). -/
structure ApprovedTrade where
  signal : TradeSignal
  risk_check_metadata : RiskMetadata
deriving DecidableEq, Repr

/-- `RejectedTrade` from `domain/models.py` (timestamp omitted). -/
structure RejectedTrade where
  signal : TradeSignal
  rejection_reason : String
  risk_check_metadata : RiskMetadata
deriving DecidableEq, Repr

/-- The two events `RiskEngine.validate_signal` can publish. -/
inductive RiskEvent where
  | signal_approved (t : ApprovedTrade)
  | signal_rejected (t : RejectedTrade)
deriving DecidableEq, Repr

/-- The Python return value `(ApprovedTrade, None) | (None, RejectedTrade)`. -/
inductive ValidationResult where
  | approved (t : ApprovedTrade)
  | rejected (t : RejectedTrade)
deriving DecidableEq, Repr

/-- Whether a validation result is an approval. -/
def ValidationResult.isApproved : ValidationResult → Bool
  | .approved _ => true
  | .rejected _ => false

/-- `RiskEngine` state from `engines/risk/engine.py`. -/
structure RiskEngine where
  rules : List RiskRule
  is_active : Bool
  recent_signals : List TradeSignal
  max_recent_signals : ℕ

/-- The default rule pipeline installed by
`RiskEngine._setup_default_rules`, in registration order. -/
def default_rules : List RiskRule :=
  [max_position_size_rule (5/100), max_positions_per_symbol_rule 2,
   min_confidence_rule (6/10), duplicate_signal_rule 1, market_hours_rule]

/-- A freshly constructed `RiskEngine`. -/
def RiskEngine.init : RiskEngine :=
  { rules := default_rules, is_active := true, recent_signals := [],
    max_recent_signals := 1000 }

/-- Python `str(x)` for an `Optional[str]` interpolated into an f-string. -/
def pyStr : Option String → String
  | none => "None"
  | some s => s

/-- The rule loop of `RiskEngine.validate_signal`: run the rules in order,
accumulating per-rule metadata; return `.inl` with the full metadata when
all pass, or `.inr (rule_name, reason, metadata_so_far)` at the first
failure, leaving later rules unevaluated. -/
def run_rules (signal : TradeSignal) (account : AccountSnapshot)
    (positions : List PositionSnapshot) (recent : List TradeSignal)
    (now : Clock) :
    List RiskRule → List RuleOutcome →
      List RuleOutcome ⊕ (String × Option String × List RuleOutcome)
  | [], acc => .inl acc
  | r :: rs, acc =>
    let res := r.validate signal account positions recent now
    let acc2 := acc ++ [⟨r.name, res.1, res.2⟩]
    if res.1 then run_rules signal account positions recent now rs acc2
    else .inr (r.name, res.2, acc2)

/-- The full return of one `validate_signal` call: the updated engine, the
returned result, and the events published during the call. -/
structure ValidationOutcome where
  engine : RiskEngine
  result : ValidationResult
  published : List RiskEvent

/-- `RiskEngine._add_recent_signal`: append, then if the buffer exceeds
`max_recent_signals`, keep only the newest `max_recent_signals // 2`
entries (`self.recent_signals[-self.max_recent_signals//2:]`). -/
def RiskEngine._add_recent_signal (e : RiskEngine) (signal : TradeSignal) :
    RiskEngine :=
  let rs := e.recent_signals ++ [signal]
  if rs.length > e.max_recent_signals then
    { e with recent_signals := rs.drop (rs.length - e.max_recent_signals / 2) }
  else
    { e with recent_signals := rs }

/-- `RiskEngine.validate_signal` from `engines/risk/engine.py`.  When the
engine is inactive it returns a rejection without publishing any event;
otherwise it runs the rules in order, publishing `SignalRejected` on the
first failure and `SignalApproved` (after appending to the recent-signal
buffer) when all rules pass. -/
def RiskEngine.validate_signal (e : RiskEngine) (signal : TradeSignal)
    (account : AccountSnapshot) (positions : List PositionSnapshot)
    (now : Clock) : ValidationOutcome :=
  if ¬ e.is_active then
    let rejected_trade : RejectedTrade :=
      ⟨signal, "Risk engine is disabled", .engine_disabled⟩
    ⟨e, .rejected rejected_trade, []⟩
  else
    match run_rules signal account positions e.recent_signals now e.rules [] with
    | .inr (rule_name, reason, meta) =>
      let rejected_trade : RejectedTrade :=
        ⟨signal, rule_name ++ ": " ++ pyStr reason, .rule_results meta⟩
      ⟨e, .rejected rejected_trade, [.signal_rejected rejected_trade]⟩
    | .inl meta =>
      let approved_trade : ApprovedTrade := ⟨signal, .rule_results meta⟩
      ⟨e._add_recent_signal signal, .approved approved_trade,
        [.signal_approved approved_trade]⟩

/-- Fold `validate_signal` over a list of `(signal, account, positions,
clock)` inputs. -/
def run_validations (e : RiskEngine) :
    List (TradeSignal × AccountSnapshot × List PositionSnapshot × Clock) →
      RiskEngine
  | [] => e
  | (s, a, p, n) :: rest =>
    run_validations ((e.validate_signal s a p n).engine) rest

/-- A well-formed signal used for the deactivated-engine scenario. -/
def c3_signal : TradeSignal := ⟨"sig-c3", "AAPL", .BUY, 1, 8/10, 0, none⟩

/-- An unremarkable account snapshot for the deactivated-engine scenario. -/
def c3_account : AccountSnapshot := ⟨100000, 100000, 100000, 3⟩

/-- C3 counterexample: with the engine deactivated, `validate_signal`
returns the `"Risk engine is disabled"` rejection but publishes no event at
all — in particular no `SignalRejected` event, contrary to the claim. -/
theorem C3_counterexample :
    (({ RiskEngine.init with is_active := false }).validate_signal
        c3_signal c3_account [] ⟨0, 10⟩).published = [] ∧
    (({ RiskEngine.init with is_active := false }).validate_signal
        c3_signal c3_account [] ⟨0, 10⟩).result =
      .rejected ⟨c3_signal, "Risk engine is disabled", .engine_disabled⟩ := by
  constructor <;> rfl

/-- C3 (amended): when the risk engine is deactivated, every
`validate_signal` call evaluates no rule (the result does not depend on the
rule list), leaves the engine unchanged, returns a `RejectedTrade` with
reason exactly `"Risk engine is disabled"`, and publishes no event. -/
theorem C3_disabled_engine (e : RiskEngine) (signal : TradeSignal)
    (account : AccountSnapshot) (positions : List PositionSnapshot)
    (now : Clock) (h : e.is_active = false) :
    (e.validate_signal signal account positions now).engine = e ∧
    (e.validate_signal signal account positions now).result =
      .rejected ⟨signal, "Risk engine is disabled", .engine_disabled⟩ ∧
    (e.validate_signal signal account positions now).published = [] ∧
    (∀ rules2 : List RiskRule,
      ({ e with rules := rules2 }.validate_signal signal account
          positions now).result =
        (e.validate_signal signal account positions now).result) := by
  simp [RiskEngine.validate_signal, h]

/-- C3 witness: the amended statement applied to a concrete deactivated
engine and signal. -/
theorem C3_disabled_engine_witness :
    (({ RiskEngine.init with is_active := false }).validate_signal
        c3_signal c3_account [] ⟨0, 10⟩).result =
      .rejected ⟨c3_signal, "Risk engine is disabled", .engine_disabled⟩ :=
  (C3_disabled_engine { RiskEngine.init with is_active := false }
    c3_signal c3_account [] ⟨0, 10⟩ rfl).2.1

/-- Passing rules leave the rule loop running on the remaining rules, with
their outcomes appended to the metadata accumulator. -/
theorem run_rules_append_pass (signal : TradeSignal) (account : AccountSnapshot)
    (positions : List PositionSnapshot) (recent : List TradeSignal) (now : Clock)
    (pre rest : List RiskRule) (acc : List RuleOutcome)
    (hpre : ∀ q ∈ pre, (q.validate signal account positions recent now).1 = true) :
    run_rules signal account positions recent now (pre ++ rest) acc =
      run_rules signal account positions recent now rest
        (acc ++ pre.map fun q =>
          ⟨q.name, true, (q.validate signal account positions recent now).2⟩) := by
  induction pre generalizing acc with
  | nil => simp
  | cons q qs ih =>
    have hq := hpre q (List.mem_cons_self _ _)
    simp only [List.cons_append, run_rules, hq, if_true, List.append_eq]
    rw [ih _ (fun p hp => hpre p (List.mem_cons_of_mem _ hp))]
    simp [hq]

/-- The rule loop stops at the first failing rule and returns its name and
reason; the rules after it are never consulted. -/
theorem run_rules_first_fail (signal : TradeSignal) (account : AccountSnapshot)
    (positions : List PositionSnapshot) (recent : List TradeSignal) (now : Clock)
    (pre rest : List RiskRule) (r : RiskRule) (acc : List RuleOutcome)
    (hpre : ∀ q ∈ pre, (q.validate signal account positions recent now).1 = true)
    (hfail : (r.validate signal account positions recent now).1 = false) :
    run_rules signal account positions recent now (pre ++ r :: rest) acc =
      .inr (r.name, (r.validate signal account positions recent now).2,
        (acc ++ pre.map fun q =>
          ⟨q.name, true, (q.validate signal account positions recent now).2⟩) ++
          [⟨r.name, false, (r.validate signal account positions recent now).2⟩]) := by
  rw [run_rules_append_pass signal account positions recent now pre _ acc hpre]
  simp [run_rules, hfail]

/-- C4: on an active engine, rules run in registered order; the first rule
returning a failure stops the pipeline (the result is independent of the
rules after it) and the rejection reason is exactly
`"{rule_name}: {reason}"`, hence begins with the failing rule's name. -/
theorem C4_first_failure (e : RiskEngine) (signal : TradeSignal)
    (account : AccountSnapshot) (positions : List PositionSnapshot) (now : Clock)
    (pre post : List RiskRule) (r : RiskRule)
    (hact : e.is_active = true)
    (hrules : e.rules = pre ++ r :: post)
    (hpre : ∀ q ∈ pre,
      (q.validate signal account positions e.recent_signals now).1 = true)
    (hfail : (r.validate signal account positions e.recent_signals now).1 = false) :
    ∃ t : RejectedTrade,
      (e.validate_signal signal account positions now).result = .rejected t ∧
      t.rejection_reason = r.name ++ ": " ++
        pyStr (r.validate signal account positions e.recent_signals now).2 ∧
      (∃ rest, t.rejection_reason = r.name ++ rest) ∧
      ∀ post2 : List RiskRule,
        ({ e with rules := pre ++ r :: post2 }.validate_signal signal
            account positions now).result =
          (e.validate_signal signal account positions now).result := by
  have k := fun post2 => run_rules_first_fail signal account positions
    e.recent_signals now pre post2 r [] hpre hfail
  refine ⟨⟨signal, r.name ++ ": " ++
      pyStr (r.validate signal account positions e.recent_signals now).2,
      .rule_results ((([] : List RuleOutcome) ++ pre.map fun q =>
        ⟨q.name, true, (q.validate signal account positions e.recent_signals now).2⟩) ++
        [⟨r.name, false,
          (r.validate signal account positions e.recent_signals now).2⟩])⟩,
    ?_, rfl, ⟨": " ++
      pyStr (r.validate signal account positions e.recent_signals now).2,
      by simp [String.append_assoc]⟩, ?_⟩
  · simp only [RiskEngine.validate_signal, hact, hrules, k post]
    simp
  · intro post2
    simp only [RiskEngine.validate_signal, hact, hrules, k post, k post2]
    simp

/-- C4 witness: on the freshly constructed engine, a signal of confidence
0.5 passes the position-size and positions-per-symbol rules and is stopped
by `min_confidence`, the third registered rule. -/
theorem C4_first_failure_witness :
    ∃ t : RejectedTrade,
      (RiskEngine.init.validate_signal ⟨"sig-c4", "AAPL", .BUY, 1, 1/2, 0, none⟩
          ⟨100000, 100000, 100000, 3⟩ [] ⟨0, 10⟩).result = .rejected t ∧
      t.rejection_reason = "min_confidence" ++ ": " ++
        pyStr ((min_confidence_rule (6/10)).validate
          ⟨"sig-c4", "AAPL", .BUY, 1, 1/2, 0, none⟩
          ⟨100000, 100000, 100000, 3⟩ [] RiskEngine.init.recent_signals ⟨0, 10⟩).2 ∧
      (∃ rest, t.rejection_reason = "min_confidence" ++ rest) ∧
      ∀ post2 : List RiskRule,
        ({ RiskEngine.init with
            rules := [max_position_size_rule (5/100),
              max_positions_per_symbol_rule 2] ++
              min_confidence_rule (6/10) :: post2 }.validate_signal
            ⟨"sig-c4", "AAPL", .BUY, 1, 1/2, 0, none⟩
            ⟨100000, 100000, 100000, 3⟩ [] ⟨0, 10⟩).result =
          (RiskEngine.init.validate_signal
            ⟨"sig-c4", "AAPL", .BUY, 1, 1/2, 0, none⟩
            ⟨100000, 100000, 100000, 3⟩ [] ⟨0, 10⟩).result :=
  C4_first_failure RiskEngine.init
    ⟨"sig-c4", "AAPL", .BUY, 1, 1/2, 0, none⟩ ⟨100000, 100000, 100000, 3⟩ [] ⟨0, 10⟩
    [max_position_size_rule (5/100), max_positions_per_symbol_rule 2]
    [duplicate_signal_rule 1, market_hours_rule] (min_confidence_rule (6/10))
    rfl rfl
    (by intro q hq
        fin_cases hq
        · norm_num [max_position_size_rule]
        · norm_num [max_positions_per_symbol_rule]
    )
    (by norm_num [min_confidence_rule, RiskEngine.init])

/-- `_add_recent_signal` never changes `max_recent_signals`. -/
theorem add_recent_signal_max (e : RiskEngine) (s : TradeSignal) :
    (e._add_recent_signal s).max_recent_signals = e.max_recent_signals := by
  simp only [RiskEngine._add_recent_signal]
  split_ifs <;> rfl

/-- After `_add_recent_signal` the buffer length is at most
`max_recent_signals`, whatever the starting length. -/
theorem add_recent_signal_length_le (e : RiskEngine) (s : TradeSignal) :
    (e._add_recent_signal s).recent_signals.length ≤ e.max_recent_signals := by
  simp only [RiskEngine._add_recent_signal]
  split_ifs with h
  · simp only [List.length_drop, List.length_append, List.length_singleton] at h ⊢
    omega
  · simp only [List.length_append, List.length_singleton] at h ⊢
    omega

/-- An append that pushes the buffer past capacity 1000 keeps exactly the
newest 500 entries. -/
theorem add_recent_signal_trunc (e : RiskEngine) (s : TradeSignal)
    (hmax : e.max_recent_signals = 1000)
    (hover : e.recent_signals.length + 1 > 1000) :
    (e._add_recent_signal s).recent_signals =
      (e.recent_signals ++ [s]).drop (e.recent_signals.length + 1 - 500) := by
  simp only [RiskEngine._add_recent_signal, List.length_append,
    List.length_singleton, hmax]
  rw [if_pos (by omega)]

/-- `validate_signal` either leaves the engine unchanged or appends the
signal to the recent-signal buffer via `_add_recent_signal`. -/
theorem validate_signal_engine_cases (e : RiskEngine) (signal : TradeSignal)
    (account : AccountSnapshot) (positions : List PositionSnapshot)
    (now : Clock) :
    (e.validate_signal signal account positions now).engine = e ∨
    (e.validate_signal signal account positions now).engine =
      e._add_recent_signal signal := by
  by_cases ha : e.is_active = true
  · unfold RiskEngine.validate_signal
    rw [if_neg (not_not_intro ha)]
    rcases hr : run_rules signal account positions e.recent_signals now
        e.rules [] with m | ⟨n, reason, m⟩
    · exact Or.inr rfl
    · exact Or.inl rfl
  · unfold RiskEngine.validate_signal
    rw [if_pos ha]
    exact Or.inl rfl

/-- A rejecting `validate_signal` call leaves the engine unchanged. -/
theorem validate_signal_rejected_unchanged (e : RiskEngine)
    (signal : TradeSignal) (account : AccountSnapshot)
    (positions : List PositionSnapshot) (now : Clock) (t : RejectedTrade)
    (h : (e.validate_signal signal account positions now).result = .rejected t) :
    (e.validate_signal signal account positions now).engine = e := by
  by_cases ha : e.is_active = true
  · unfold RiskEngine.validate_signal at h ⊢
    rw [if_neg (not_not_intro ha)] at h ⊢
    rcases hr : run_rules signal account positions e.recent_signals now
        e.rules [] with m | ⟨n, reason, m⟩
    · rw [hr] at h
      simp at h
    · rfl
  · unfold RiskEngine.validate_signal
    rw [if_pos ha]

/-- An approving `validate_signal` call updates the engine exactly by
`_add_recent_signal`. -/
theorem validate_signal_approved_add (e : RiskEngine) (signal : TradeSignal)
    (account : AccountSnapshot) (positions : List PositionSnapshot)
    (now : Clock) (t : ApprovedTrade)
    (h : (e.validate_signal signal account positions now).result = .approved t) :
    (e.validate_signal signal account positions now).engine =
      e._add_recent_signal signal := by
  by_cases ha : e.is_active = true
  · unfold RiskEngine.validate_signal at h ⊢
    rw [if_neg (not_not_intro ha)] at h ⊢
    rcases hr : run_rules signal account positions e.recent_signals now
        e.rules [] with m | ⟨n, reason, m⟩
    · rfl
    · rw [hr] at h
      simp at h
  · unfold RiskEngine.validate_signal at h
    rw [if_pos ha] at h
    simp at h

/-- `validate_signal` never changes the buffer capacity. -/
theorem validate_signal_max_preserved (e : RiskEngine) (signal : TradeSignal)
    (account : AccountSnapshot) (positions : List PositionSnapshot)
    (now : Clock) :
    (e.validate_signal signal account positions now).engine.max_recent_signals =
      e.max_recent_signals := by
  rcases validate_signal_engine_cases e signal account positions now with h | h <;>
    rw [h]
  exact add_recent_signal_max e signal

/-- Along any sequence of `validate_signal` calls from a state with
capacity 1000 and buffer within capacity, the buffer stays within 1000. -/
theorem run_validations_length_le
    (inputs : List (TradeSignal × AccountSnapshot × List PositionSnapshot × Clock))
    (e : RiskEngine) (hmax : e.max_recent_signals = 1000)
    (hlen : e.recent_signals.length ≤ 1000) :
    (run_validations e inputs).recent_signals.length ≤ 1000 := by
  induction inputs generalizing e with
  | nil => exact hlen
  | cons i rest ih =>
    obtain ⟨s, a, p, n⟩ := i
    apply ih
    · rw [validate_signal_max_preserved]
      exact hmax
    · rcases validate_signal_engine_cases e s a p n with h | h <;> rw [h]
      · exact hlen
      · calc (e._add_recent_signal s).recent_signals.length
            ≤ e.max_recent_signals := add_recent_signal_length_le e s
          _ = 1000 := hmax

/-- C5: the recent-signals buffer is appended only on approval (rejections
leave it untouched), an overflowing append truncates to the newest 500
entries, and along every sequence of `validate_signal` calls from a fresh
engine the buffer holds at most 1000 entries. -/
theorem C5_recent_signals_bounded :
    (∀ (e : RiskEngine) (signal : TradeSignal) (account : AccountSnapshot)
        (positions : List PositionSnapshot) (now : Clock) (t : RejectedTrade),
      (e.validate_signal signal account positions now).result = .rejected t →
        (e.validate_signal signal account positions now).engine.recent_signals =
          e.recent_signals) ∧
    (∀ (e : RiskEngine) (signal : TradeSignal) (account : AccountSnapshot)
        (positions : List PositionSnapshot) (now : Clock) (t : ApprovedTrade),
      (e.validate_signal signal account positions now).result = .approved t →
        (e.validate_signal signal account positions now).engine =
          e._add_recent_signal signal) ∧
    (∀ (e : RiskEngine) (s : TradeSignal),
      e.max_recent_signals = 1000 → e.recent_signals.length + 1 > 1000 →
        (e._add_recent_signal s).recent_signals =
          (e.recent_signals ++ [s]).drop (e.recent_signals.length + 1 - 500)) ∧
    (∀ (e : RiskEngine) (signal : TradeSignal) (account : AccountSnapshot)
        (positions : List PositionSnapshot) (now : Clock),
      e.max_recent_signals = 1000 → e.recent_signals.length ≤ 1000 →
        (e.validate_signal signal account positions
            now).engine.recent_signals.length ≤ 1000) ∧
    (∀ inputs : List (TradeSignal × AccountSnapshot ×
        List PositionSnapshot × Clock),
      (run_validations RiskEngine.init inputs).recent_signals.length ≤ 1000) := by
  refine ⟨?_, validate_signal_approved_add, add_recent_signal_trunc, ?_, ?_⟩
  · intro e signal account positions now t h
    rw [validate_signal_rejected_unchanged e signal account positions now t h]
  · intro e signal account positions now hmax hlen
    rcases validate_signal_engine_cases e signal account positions now with h | h <;>
      rw [h]
    · exact hlen
    · calc (e._add_recent_signal signal).recent_signals.length
          ≤ e.max_recent_signals := add_recent_signal_length_le e signal
        _ = 1000 := hmax
  · intro inputs
    exact run_validations_length_le inputs RiskEngine.init rfl (by simp [RiskEngine.init])

/-- C5 witness: the bound applied to a concrete one-call sequence. -/
theorem C5_recent_signals_bounded_witness :
    (run_validations RiskEngine.init
      [(c3_signal, c3_account, [], ⟨0, 10⟩)]).recent_signals.length ≤ 1000 :=
  C5_recent_signals_bounded.2.2.2.2 [(c3_signal, c3_account, [], ⟨0, 10⟩)]

/-- `_add_recent_signal` never changes the rule list. -/
theorem add_recent_signal_rules (e : RiskEngine) (s : TradeSignal) :
    (e._add_recent_signal s).rules = e.rules := by
  simp only [RiskEngine._add_recent_signal]
  split_ifs <;> rfl

/-- `_add_recent_signal` never changes the activation flag. -/
theorem add_recent_signal_active (e : RiskEngine) (s : TradeSignal) :
    (e._add_recent_signal s).is_active = e.is_active := by
  simp only [RiskEngine._add_recent_signal]
  split_ifs <;> rfl

/-- The appended signal survives `_add_recent_signal`, even through a
truncation, because truncation keeps the newest 500 entries. -/
theorem add_recent_signal_mem (e : RiskEngine) (s : TradeSignal)
    (hmax : e.max_recent_signals = 1000) :
    s ∈ (e._add_recent_signal s).recent_signals := by
  simp only [RiskEngine._add_recent_signal, hmax]
  split_ifs with h
  · have hk : (e.recent_signals ++ [s]).length - 1000 / 2 ≤
        e.recent_signals.length := by
      simp only [List.length_append, List.length_singleton]
      omega
    rw [List.drop_append_of_le_length hk]
    simp
  · simp

/-- The duplicate rule fails whenever some recent signal matches the
incoming one in symbol and side inside the time window. -/
theorem duplicate_rule_fails (signal : TradeSignal) (account : AccountSnapshot)
    (positions : List PositionSnapshot) (recent : List TradeSignal) (now : Clock)
    (r : TradeSignal) (hr : r ∈ recent) (hsym : r.symbol = signal.symbol)
    (hside : r.side = signal.side)
    (htime : r.created_at > signal.created_at - 60) :
    ((duplicate_signal_rule 1).validate signal account positions recent
      now).1 = false := by
  simp only [duplicate_signal_rule]
  rw [if_pos]
  · rw [List.any_eq_true]
    refine ⟨r, hr, ?_⟩
    rw [decide_eq_true_eq]
    refine ⟨hsym, hside, ?_⟩
    have : (1 : ℚ) * 60 = 60 := by norm_num
    rw [this]
    exact htime

/-- C6: after a signal `s1` is approved, a second signal with the same
symbol and side created within one minute of `s1`, which passes the
position-size, positions-per-symbol and confidence rules, is rejected with
a reason beginning `duplicate_signal`. -/
theorem C6_duplicate_rejected (e : RiskEngine) (s1 s2 : TradeSignal)
    (a1 a2 : AccountSnapshot) (p1 p2 : List PositionSnapshot) (n1 n2 : Clock)
    (hrules : e.rules = default_rules) (hact : e.is_active = true)
    (hmax : e.max_recent_signals = 1000)
    (happr : (e.validate_signal s1 a1 p1 n1).result.isApproved = true)
    (hsym : s2.symbol = s1.symbol) (hside : s2.side = s1.side)
    (hwithin : s2.created_at - s1.created_at < 60)
    (h1 : ((max_position_size_rule (5/100)).validate s2 a2 p2
      (e.validate_signal s1 a1 p1 n1).engine.recent_signals n2).1 = true)
    (h2 : ((max_positions_per_symbol_rule 2).validate s2 a2 p2
      (e.validate_signal s1 a1 p1 n1).engine.recent_signals n2).1 = true)
    (h3 : ((min_confidence_rule (6/10)).validate s2 a2 p2
      (e.validate_signal s1 a1 p1 n1).engine.recent_signals n2).1 = true) :
    ∃ t : RejectedTrade,
      ((e.validate_signal s1 a1 p1 n1).engine.validate_signal s2 a2 p2
        n2).result = .rejected t ∧
      ∃ rest, t.rejection_reason = "duplicate_signal" ++ rest := by
  obtain ⟨t1, ht1⟩ : ∃ t1, (e.validate_signal s1 a1 p1 n1).result = .approved t1 := by
    rcases hres : (e.validate_signal s1 a1 p1 n1).result with t1 | t1
    · exact ⟨t1, rfl⟩
    · rw [hres] at happr
      simp [ValidationResult.isApproved] at happr
  have hadd := validate_signal_approved_add e s1 a1 p1 n1 t1 ht1
  have hact2 : (e.validate_signal s1 a1 p1 n1).engine.is_active = true := by
    rw [hadd, add_recent_signal_active]
    exact hact
  have hrules2 : (e.validate_signal s1 a1 p1 n1).engine.rules =
      [max_position_size_rule (5/100), max_positions_per_symbol_rule 2,
        min_confidence_rule (6/10)] ++ duplicate_signal_rule 1 ::
        [market_hours_rule] := by
    rw [hadd, add_recent_signal_rules, hrules]
    rfl
  have hmem : s1 ∈ (e.validate_signal s1 a1 p1 n1).engine.recent_signals := by
    rw [hadd]
    exact add_recent_signal_mem e s1 hmax
  have hfail := duplicate_rule_fails s2 a2 p2
    (e.validate_signal s1 a1 p1 n1).engine.recent_signals n2 s1 hmem
    hsym.symm hside.symm (by linarith)
  have hpre : ∀ q ∈ [max_position_size_rule (5/100),
      max_positions_per_symbol_rule 2, min_confidence_rule (6/10)],
      (q.validate s2 a2 p2
        (e.validate_signal s1 a1 p1 n1).engine.recent_signals n2).1 = true := by
    intro q hq
    fin_cases hq
    · exact h1
    · exact h2
    · exact h3
  obtain ⟨t, ht, _, hrest, _⟩ := C4_first_failure
    (e.validate_signal s1 a1 p1 n1).engine s2 a2 p2 n2
    [max_position_size_rule (5/100), max_positions_per_symbol_rule 2,
      min_confidence_rule (6/10)] [market_hours_rule]
    (duplicate_signal_rule 1) hact2 hrules2 hpre hfail
  exact ⟨t, ht, hrest⟩

/-- First concrete signal of the duplicate scenario. -/
def c6_s1 : TradeSignal := ⟨"c6a", "AAPL", .BUY, 1, 8/10, 0, none⟩

/-- Second concrete signal: same symbol and side, created 30 seconds after
the first. -/
def c6_s2 : TradeSignal := ⟨"c6b", "AAPL", .BUY, 1, 8/10, 30, none⟩

/-- A large account, so the position-size rule passes easily. -/
def c6_acct : AccountSnapshot := ⟨1000000, 1000000, 1000000, 3⟩

/-- C6 witness: the duplicate rejection applied to the concrete
back-to-back scenario on a fresh engine. -/
theorem C6_duplicate_rejected_witness :
    ∃ t : RejectedTrade,
      ((RiskEngine.init.validate_signal c6_s1 c6_acct [] ⟨0, 10⟩).engine.validate_signal
        c6_s2 c6_acct [] ⟨0, 10⟩).result = .rejected t ∧
      ∃ rest, t.rejection_reason = "duplicate_signal" ++ rest :=
  C6_duplicate_rejected RiskEngine.init c6_s1 c6_s2 c6_acct c6_acct [] []
    ⟨0, 10⟩ ⟨0, 10⟩ rfl rfl rfl
    (by norm_num [RiskEngine.validate_signal, RiskEngine.init, default_rules,
      run_rules, max_position_size_rule, max_positions_per_symbol_rule,
      min_confidence_rule, duplicate_signal_rule, market_hours_rule, c6_s1,
      c6_acct, ValidationResult.isApproved])
    rfl rfl
    (by norm_num [c6_s1, c6_s2])
    (by norm_num [max_position_size_rule, c6_s2, c6_acct])
    (by norm_num [max_positions_per_symbol_rule])
    (by norm_num [min_confidence_rule, c6_s2])

/-- One entry of a per-symbol price history
(`{'price': ..., 'timestamp': ...}`). -/
structure PriceData where
  price : ℚ
  timestamp : ℚ
deriving DecidableEq, Repr

/-- `MarketEventType` from `domain/models.py`. -/
inductive MarketEventType where
  | TICK
  | BAR
  | VOLATILITY
  | OPTION_CHAIN
deriving DecidableEq, Repr

/-- `MarketEvent` from `domain/models.py`; the payload dict is an
association list of numeric fields. -/
structure MarketEvent where
  type : MarketEventType
  symbol : String
  timestamp : ℚ
  payload : List (String × ℚ)
deriving DecidableEq, Repr

/-- The arguments the strategy passes to `create_trade_signal`, including
the metadata entries, when a crossover produces a signal. -/
structure MASignal where
  symbol : String
  side : Side
  qty : Int
  confidence : ℚ
  short_ma : ℚ
  long_ma : ℚ
  price : ℚ
  crossover_type : String
deriving DecidableEq, Repr

/-- `MovingAverageCrossoverStrategy` state from
`engines/strategy/ma_crossover.py` (with the `is_active` flag inherited
from `BaseStrategy`).  The per-symbol dicts are total functions with the
dict-miss defaults made explicit. -/
structure MovingAverageCrossoverStrategy where
  symbols : List String
  is_active : Bool
  short_period : ℕ
  long_period : ℕ
  min_confidence : ℚ
  price_history : String → List PriceData
  last_signal_time : String → Option ℚ

/-- A freshly constructed strategy: empty histories, no last-signal
times, active. -/
def MovingAverageCrossoverStrategy.mk0 (symbols : List String)
    (short_period long_period : ℕ) (min_confidence : ℚ) :
    MovingAverageCrossoverStrategy :=
  { symbols := symbols, is_active := true, short_period := short_period,
    long_period := long_period, min_confidence := min_confidence,
    price_history := fun _ => [], last_signal_time := fun _ => none }

/-- `MovingAverageCrossoverStrategy._extract_price`: first of the fields
`price`, `close`, `last`, `mid`; otherwise the bid/ask midpoint when both
are positive; otherwise no price. -/
def _extract_price (payload : List (String × ℚ)) : Option ℚ :=
  match payload.lookup "price" with
  | some v => some v
  | none =>
  match payload.lookup "close" with
  | some v => some v
  | none =>
  match payload.lookup "last" with
  | some v => some v
  | none =>
  match payload.lookup "mid" with
  | some v => some v
  | none =>
  match payload.lookup "bid", payload.lookup "ask" with
  | some bid, some ask =>
    if bid > 0 ∧ ask > 0 then some ((bid + ask) / 2) else none
  | _, _ => none

/-- `MovingAverageCrossoverStrategy._update_price_history`: append the new
`(price, timestamp)` entry for the symbol, then keep only the newest
`long_period + 10` entries. -/
def MovingAverageCrossoverStrategy._update_price_history
    (st : MovingAverageCrossoverStrategy) (symbol : String) (price : ℚ)
    (timestamp : ℚ) : MovingAverageCrossoverStrategy :=
  let hist := st.price_history symbol ++ [⟨price, timestamp⟩]
  let max_history := st.long_period + 10
  let hist2 :=
    if hist.length > max_history then hist.drop (hist.length - max_history)
    else hist
  { st with price_history := fun s =>
      if s = symbol then hist2 else st.price_history s }

/-- `MovingAverageCrossoverStrategy._calculate_moving_averages`: the short
and long moving averages over the newest window, or `(none, none)` with
fewer than `long_period` samples. -/
def MovingAverageCrossoverStrategy._calculate_moving_averages
    (st : MovingAverageCrossoverStrategy) (symbol : String) :
    Option ℚ × Option ℚ :=
  let prices := (st.price_history symbol).map (·.price)
  if prices.length < st.long_period then (none, none)
  else
    (some ((prices.drop (prices.length - st.short_period)).sum / st.short_period),
     some ((prices.drop (prices.length - st.long_period)).sum / st.long_period))

/-- `MovingAverageCrossoverStrategy._get_previous_moving_averages`: the
same averages over the window shifted one tick back, or `(none, none)`
with fewer than `long_period + 1` samples. -/
def MovingAverageCrossoverStrategy._get_previous_moving_averages
    (st : MovingAverageCrossoverStrategy) (symbol : String) :
    Option ℚ × Option ℚ :=
  let prices := (st.price_history symbol).map (·.price)
  if prices.length < st.long_period + 1 then (none, none)
  else
    let prev_prices := prices.dropLast
    if prev_prices.length < st.long_period then (none, none)
    else
      (some ((prev_prices.drop (prev_prices.length - st.short_period)).sum /
          st.short_period),
       some ((prev_prices.drop (prev_prices.length - st.long_period)).sum /
          st.long_period))

/-- `MovingAverageCrossoverStrategy._calculate_signal_confidence`:
base 0.5, plus the MA-gap factor capped at 0.3, plus the directional price
factor capped at 0.2, everything capped at 1.0. -/
def _calculate_signal_confidence (price short_ma long_ma : ℚ)
    (crossover_type : String) : ℚ :=
  let base_confidence : ℚ := 1/2
  let ma_gap := |short_ma - long_ma| / long_ma
  let gap_factor := min (ma_gap * 10) (3/10)
  let price_factor :=
    if crossover_type = "bullish" then
      if price > long_ma then min ((price - long_ma) / long_ma * 5) (1/5) else 0
    else
      if price < long_ma then min ((long_ma - price) / long_ma * 5) (1/5) else 0
  let confidence := base_confidence + gap_factor + price_factor
  min confidence 1

/-- `MovingAverageCrossoverStrategy._calculate_position_size`:
`max(1, int(100 * (0.5 + 0.5 * confidence)))` (truncation equals floor on
the non-negative values produced). -/
def _calculate_position_size (confidence : ℚ) : Int :=
  max 1 ⌊(100 : ℚ) * (1/2 + confidence * (1/2))⌋

/-- `MovingAverageCrossoverStrategy._detect_crossover`: apply the 5-minute
per-symbol cooldown, detect a bullish (preferred) or bearish crossover,
filter by `min_confidence`, and on emission record the signal timestamp. -/
def MovingAverageCrossoverStrategy._detect_crossover
    (st : MovingAverageCrossoverStrategy) (symbol : String) (price : ℚ)
    (short_ma long_ma prev_short_ma prev_long_ma : ℚ) (timestamp : ℚ) :
    MovingAverageCrossoverStrategy × Option MASignal :=
  let cooled_down : Bool :=
    match st.last_signal_time symbol with
    | some t0 => decide (timestamp - t0 < 300)
    | none => false
  if cooled_down then (st, none)
  else
    let signal : Option MASignal :=
      if prev_short_ma ≤ prev_long_ma ∧ short_ma > long_ma then
        let confidence := _calculate_signal_confidence price short_ma long_ma
          "bullish"
        if confidence ≥ st.min_confidence then
          some ⟨symbol, .BUY, _calculate_position_size confidence, confidence,
            short_ma, long_ma, price, "bullish"⟩
        else none
      else if prev_short_ma ≥ prev_long_ma ∧ short_ma < long_ma then
        let confidence := _calculate_signal_confidence price short_ma long_ma
          "bearish"
        if confidence ≥ st.min_confidence then
          some ⟨symbol, .SELL, _calculate_position_size confidence, confidence,
            short_ma, long_ma, price, "bearish"⟩
        else none
      else none
    match signal with
    | some sig =>
      ({ st with last_signal_time := fun s =>
          if s = symbol then some timestamp else st.last_signal_time s },
        some sig)
    | none => (st, none)

/-- `MovingAverageCrossoverStrategy.process_market_event`: gate on
activation, TICK type and symbol relevance, extract the price, update the
history, compute current and previous MAs, and detect a crossover. -/
def MovingAverageCrossoverStrategy.process_market_event
    (st : MovingAverageCrossoverStrategy) (event : MarketEvent) :
    MovingAverageCrossoverStrategy × List MASignal :=
  if ¬ st.is_active ∨ event.type ≠ .TICK then (st, [])
  else if ¬ st.symbols.contains event.symbol then (st, [])
  else
    match _extract_price event.payload with
    | none => (st, [])
    | some price =>
      let st1 := st._update_price_history event.symbol price event.timestamp
      match st1._calculate_moving_averages event.symbol with
      | (some short_ma, some long_ma) =>
        match st1._get_previous_moving_averages event.symbol with
        | (some prev_short_ma, some prev_long_ma) =>
          let det := st1._detect_crossover event.symbol price short_ma long_ma
            prev_short_ma prev_long_ma event.timestamp
          (det.1, det.2.elim [] (fun s => [s]))
        | (_, _) => (st1, [])
      | (_, _) => (st1, [])

/-- Fold `process_market_event` over a tick sequence, keeping only the
final strategy state. -/
def run_market_events (st : MovingAverageCrossoverStrategy) :
    List MarketEvent → MovingAverageCrossoverStrategy
  | [] => st
  | e :: rest => run_market_events (st.process_market_event e).1 rest

/-- The confidence formula exactly as the spec sentence states it, for
comparison with the implementation: `min(0.5 + min(|short − long|/long ·
10, 0.3) + price_factor, 1.0)` with the directional price factor capped at
0.2. -/
def spec_ma_confidence (price short_ma long_ma : ℚ) (bullish : Bool) : ℚ :=
  let price_factor :=
    if bullish then
      if price > long_ma then min ((price - long_ma) / long_ma * 5) (1/5) else 0
    else
      if price < long_ma then min ((long_ma - price) / long_ma * 5) (1/5) else 0
  min (1/2 + min (|short_ma - long_ma| / long_ma * 10) (3/10) + price_factor) 1

/-- A signal emitted by `_detect_crossover` carries the confidence computed
by `_calculate_signal_confidence` on its recorded direction, MAs and
price. -/
theorem detect_crossover_confidence (st : MovingAverageCrossoverStrategy)
    (symbol : String) (price s l ps pl ts : ℚ) (sig : MASignal)
    (h : (st._detect_crossover symbol price s l ps pl ts).2 = some sig) :
    (sig.crossover_type = "bullish" ∨ sig.crossover_type = "bearish") ∧
    sig.confidence = _calculate_signal_confidence price s l sig.crossover_type ∧
    sig.short_ma = s ∧ sig.long_ma = l ∧ sig.price = price := by
  unfold MovingAverageCrossoverStrategy._detect_crossover at h
  rcases hlast : st.last_signal_time symbol with _ | t0 <;>
    simp only [hlast] at h <;>
    split_ifs at h
  all_goals
    first
    | (simp at h; done)
    | (change some _ = some sig at h
       obtain rfl := Option.some.inj h
       simp)

/-- Bullish cap: with a relative MA gap of at least 5% and the price
factor at its 0.2 cap, the confidence is exactly 1. -/
theorem confidence_capped_bullish (price s l : ℚ) (hl : 0 < l)
    (hgap : 1/20 ≤ |s - l| / l) (hpf : 1/5 ≤ (price - l) / l * 5) :
    _calculate_signal_confidence price s l "bullish" = 1 := by
  have h1 : (1 : ℚ)/25 ≤ (price - l) / l := by linarith
  have h2 : 1/25 * l ≤ price - l := (le_div_iff₀ hl).mp h1
  have hpl : price > l := by nlinarith
  simp only [_calculate_signal_confidence]
  rw [if_pos trivial, if_pos hpl,
    min_eq_right (by linarith : (3 : ℚ)/10 ≤ |s - l| / l * 10),
    min_eq_right hpf]
  norm_num

/-- Bearish cap, symmetric to the bullish one. -/
theorem confidence_capped_bearish (price s l : ℚ) (hl : 0 < l)
    (hgap : 1/20 ≤ |s - l| / l) (hpf : 1/5 ≤ (l - price) / l * 5) :
    _calculate_signal_confidence price s l "bearish" = 1 := by
  have h1 : (1 : ℚ)/25 ≤ (l - price) / l := by linarith
  have h2 : 1/25 * l ≤ l - price := (le_div_iff₀ hl).mp h1
  have hpl : price < l := by nlinarith
  simp only [_calculate_signal_confidence]
  rw [if_neg (by decide), if_pos hpl,
    min_eq_right (by linarith : (3 : ℚ)/10 ≤ |s - l| / l * 10),
    min_eq_right hpf]
  norm_num

/-- C7: the crossover confidence equals the spec's closed formula (base
0.5, gap factor capped at 0.3, directional price factor capped at 0.2, all
capped at 1.0); every emitted signal carries that confidence; and the
confidence is exactly 1.0 once the relative MA gap reaches 5% and the
price factor reaches its 0.2 cap, in either direction. -/
theorem C7_ma_confidence :
    (∀ price short_ma long_ma : ℚ,
      _calculate_signal_confidence price short_ma long_ma "bullish" =
        spec_ma_confidence price short_ma long_ma true ∧
      _calculate_signal_confidence price short_ma long_ma "bearish" =
        spec_ma_confidence price short_ma long_ma false) ∧
    (∀ (st : MovingAverageCrossoverStrategy) (symbol : String)
        (price s l ps pl ts : ℚ) (sig : MASignal),
      (st._detect_crossover symbol price s l ps pl ts).2 = some sig →
        sig.confidence =
          _calculate_signal_confidence price s l sig.crossover_type) ∧
    (∀ price s l : ℚ, 0 < l → 1/20 ≤ |s - l| / l →
      1/5 ≤ (price - l) / l * 5 →
        _calculate_signal_confidence price s l "bullish" = 1) ∧
    (∀ price s l : ℚ, 0 < l → 1/20 ≤ |s - l| / l →
      1/5 ≤ (l - price) / l * 5 →
        _calculate_signal_confidence price s l "bearish" = 1) := by
  refine ⟨?_, ?_, confidence_capped_bullish, confidence_capped_bearish⟩
  · intro price short_ma long_ma
    exact ⟨rfl, rfl⟩
  · intro st symbol price s l ps pl ts sig h
    exact (detect_crossover_confidence st symbol price s l ps pl ts sig h).2.1

/-- C7 witness: at price 2, short MA 2 and long MA 1 the gap and price
factor are both at cap and the confidence is exactly 1. -/
theorem C7_ma_confidence_witness :
    _calculate_signal_confidence 2 2 1 "bullish" = 1 :=
  C7_ma_confidence.2.2.1 2 2 1 (by norm_num) (by norm_num) (by norm_num)

/-- After `_update_price_history`, the updated symbol's buffer is exactly
the newest `long_period + 10` entries of the old buffer plus the new
entry (the trim is a no-op when the bound is not exceeded). -/
theorem update_price_history_eq (st : MovingAverageCrossoverStrategy)
    (sym : String) (p ts : ℚ) :
    (st._update_price_history sym p ts).price_history sym =
      (st.price_history sym ++ [PriceData.mk p ts]).drop
        ((st.price_history sym ++ [PriceData.mk p ts]).length - (st.long_period + 10)) := by
  simp only [MovingAverageCrossoverStrategy._update_price_history]
  rw [if_pos trivial]
  split_ifs with hlen
  · rfl
  · have h0 : (st.price_history sym ++ [PriceData.mk p ts]).length -
        (st.long_period + 10) = 0 := by
      simp only [not_lt] at hlen
      omega
    rw [h0, List.drop_zero]

/-- `_update_price_history` preserves the per-symbol bound
`long_period + 10` on every symbol's buffer. -/
theorem update_price_history_inv (st : MovingAverageCrossoverStrategy)
    (sym : String) (p ts : ℚ)
    (hinv : ∀ s2, (st.price_history s2).length ≤ st.long_period + 10) :
    ∀ s2, ((st._update_price_history sym p ts).price_history s2).length ≤
      st.long_period + 10 := by
  intro s2
  simp only [MovingAverageCrossoverStrategy._update_price_history]
  by_cases hs : s2 = sym
  · rw [if_pos hs]
    split_ifs with hl
    · simp only [List.length_drop]
      omega
    · simp only [not_lt] at hl
      exact hl
  · rw [if_neg hs]
    exact hinv s2

/-- `_update_price_history` does not change `long_period`. -/
theorem update_price_history_long_period (st : MovingAverageCrossoverStrategy)
    (sym : String) (p ts : ℚ) :
    (st._update_price_history sym p ts).long_period = st.long_period := rfl

/-- `_detect_crossover` does not change `long_period` (it only touches
`last_signal_time`). -/
theorem detect_crossover_long_period (st : MovingAverageCrossoverStrategy)
    (symbol : String) (price s l ps pl ts : ℚ) :
    (st._detect_crossover symbol price s l ps pl ts).1.long_period =
      st.long_period := by
  simp only [MovingAverageCrossoverStrategy._detect_crossover]
  repeat' split
  all_goals rfl

/-- `_detect_crossover` does not change the price histories. -/
theorem detect_crossover_price_history (st : MovingAverageCrossoverStrategy)
    (symbol : String) (price s l ps pl ts : ℚ) :
    (st._detect_crossover symbol price s l ps pl ts).1.price_history =
      st.price_history := by
  simp only [MovingAverageCrossoverStrategy._detect_crossover]
  repeat' split
  all_goals rfl

/-- One processed market event leaves `long_period` unchanged and either
leaves the histories untouched or performs exactly one
`_update_price_history` for the event's symbol at the extracted price. -/
theorem process_market_event_state (st : MovingAverageCrossoverStrategy)
    (e : MarketEvent) :
    (st.process_market_event e).1.long_period = st.long_period ∧
    ((st.process_market_event e).1.price_history = st.price_history ∨
      ∃ price, (st.process_market_event e).1.price_history =
        (st._update_price_history e.symbol price e.timestamp).price_history) := by
  simp only [MovingAverageCrossoverStrategy.process_market_event]
  repeat' split
  all_goals try exact ⟨rfl, Or.inl rfl⟩
  all_goals try exact ⟨rfl, Or.inr ⟨_, rfl⟩⟩
  all_goals
    (simp only [detect_crossover_long_period, detect_crossover_price_history]
     exact ⟨rfl, Or.inr ⟨_, rfl⟩⟩)

/-- One processed market event preserves the per-symbol history bound. -/
theorem process_market_event_inv (st : MovingAverageCrossoverStrategy)
    (e : MarketEvent)
    (hinv : ∀ s2, (st.price_history s2).length ≤ st.long_period + 10) :
    ∀ s2, ((st.process_market_event e).1.price_history s2).length ≤
      (st.process_market_event e).1.long_period + 10 := by
  have hst := process_market_event_state st e
  intro s2
  rw [hst.1]
  rcases hst.2 with h | ⟨price, h⟩
  · rw [h]
    exact hinv s2
  · rw [h]
    exact update_price_history_inv st e.symbol price e.timestamp hinv s2

/-- `long_period` is constant along any processed tick sequence. -/
theorem run_market_events_long_period (events : List MarketEvent)
    (st : MovingAverageCrossoverStrategy) :
    (run_market_events st events).long_period = st.long_period := by
  induction events generalizing st with
  | nil => rfl
  | cons e rest ih =>
    rw [run_market_events, ih, (process_market_event_state st e).1]

/-- The per-symbol bound holds after any processed tick sequence. -/
theorem run_market_events_inv (events : List MarketEvent)
    (st : MovingAverageCrossoverStrategy)
    (hinv : ∀ s2, (st.price_history s2).length ≤ st.long_period + 10) :
    ∀ s2, ((run_market_events st events).price_history s2).length ≤
      (run_market_events st events).long_period + 10 := by
  induction events generalizing st with
  | nil => exact hinv
  | cons e rest ih => exact ih _ (process_market_event_inv st e hinv)

/-- C8: each processed tick appends one `(price, timestamp)` entry and
trims the symbol's buffer to its newest `long_period + 10` entries, and
for every symbol and every tick sequence from a fresh strategy the buffer
never exceeds `long_period + 10` entries. -/
theorem C8_price_history_bounded :
    (∀ (st : MovingAverageCrossoverStrategy) (sym : String) (p ts : ℚ),
      (st._update_price_history sym p ts).price_history sym =
        (st.price_history sym ++ [PriceData.mk p ts]).drop
          ((st.price_history sym ++ [PriceData.mk p ts]).length -
            (st.long_period + 10))) ∧
    (∀ (st : MovingAverageCrossoverStrategy) (e : MarketEvent),
      (st.process_market_event e).1.price_history = st.price_history ∨
        ∃ price, (st.process_market_event e).1.price_history =
          (st._update_price_history e.symbol price e.timestamp).price_history) ∧
    (∀ (st : MovingAverageCrossoverStrategy) (sym : String) (p ts : ℚ)
        (s2 : String),
      (∀ s3, (st.price_history s3).length ≤ st.long_period + 10) →
        ((st._update_price_history sym p ts).price_history s2).length ≤
          st.long_period + 10) ∧
    (∀ (symbols : List String) (sp lp : ℕ) (mc : ℚ)
        (events : List MarketEvent) (sym : String),
      ((run_market_events
          (MovingAverageCrossoverStrategy.mk0 symbols sp lp mc)
          events).price_history sym).length ≤ lp + 10) := by
  refine ⟨update_price_history_eq,
    fun st e => (process_market_event_state st e).2,
    fun st sym p ts s2 hinv => update_price_history_inv st sym p ts hinv s2,
    fun symbols sp lp mc events sym => ?_⟩
  have h := run_market_events_inv events
    (MovingAverageCrossoverStrategy.mk0 symbols sp lp mc)
    (by intro s3; simp [MovingAverageCrossoverStrategy.mk0]) sym
  rwa [run_market_events_long_period] at h

/-- C8 witness: the bound applied to a concrete strategy and a concrete
one-tick sequence. -/
theorem C8_price_history_bounded_witness :
    ((run_market_events (MovingAverageCrossoverStrategy.mk0 ["SPY"] 2 3 (6/10))
      [⟨.TICK, "SPY", 0, [("price", 100)]⟩]).price_history "SPY").length ≤
      3 + 10 :=
  C8_price_history_bounded.2.2.2 ["SPY"] 2 3 (6/10)
    [⟨.TICK, "SPY", 0, [("price", 100)]⟩] "SPY"

/-- `ExecutionStatus` from `engines/execution/engine.py`. -/
inductive ExecutionStatus where
  | IDLE
  | PROCESSING
  | ERROR
deriving DecidableEq, Repr

/-- `OrderEvent` from `domain/models.py`, with timestamps as rational
seconds. -/
structure OrderEvent where
  order_id : String
  signal_id : String
  status : OrderStatus
  timestamp : ℚ
  broker_order_id : Option String := none
  filled_qty : Int := 0
  filled_price : Option ℚ := none
  rejection_reason : Option String := none
deriving DecidableEq, Repr

/-- The value stored per order in `ExecutionEngine.active_orders` by
`_track_order`. -/
structure OrderInfo where
  broker_order_id : Option String
  signal_id : String
  symbol : String
  side : Side
  qty : Int
  submitted_at : ℚ
  approved_trade : ApprovedTrade
deriving DecidableEq, Repr

/-- The `stats` dictionary of the execution engine. -/
structure ExecStats where
  orders_submitted : ℕ
  orders_filled : ℕ
  orders_rejected : ℕ
  orders_cancelled : ℕ
  total_execution_time : ℚ
deriving DecidableEq, Repr

/-- `ExecutionEngine` state: status, the `active_orders` and
`order_history` dicts (association lists in insertion order), and the
stats counters. -/
structure ExecutionEngine where
  status : ExecutionStatus
  active_orders : List (String × OrderInfo)
  order_history : List (String × OrderEvent)
  stats : ExecStats
deriving DecidableEq, Repr

/-- A freshly constructed execution engine. -/
def ExecutionEngine.init : ExecutionEngine :=
  { status := .IDLE, active_orders := [], order_history := [],
    stats := ⟨0, 0, 0, 0, 0⟩ }

/-- Python dict assignment `d[k] = v` on an association list: replace in
place when the key exists, append otherwise. -/
def dictSet {α : Type} : List (String × α) → String → α → List (String × α)
  | [], k, v => [(k, v)]
  | (k0, v0) :: rest, k, v =>
    if k0 = k then (k, v) :: rest else (k0, v0) :: dictSet rest k v

/-- The full return of one `execute_approved_trade` call: the updated
engine, the `OrderEvent`s the engine itself synthesized during the call,
and the initial order events for which a monitor task was spawned. -/
structure ExecOutcome where
  engine : ExecutionEngine
  synthesized : List OrderEvent
  monitors : List OrderEvent
deriving DecidableEq, Repr

/-- `ExecutionEngine.execute_approved_trade` from
`engines/execution/engine.py`.  The awaited `broker.place_order` call is
passed in as its outcome: `.ok` with the returned `OrderEvent`, or
`.error` with the message of the raised exception.  `execution_time` is
the measured elapsed broker-call time and `now` the clock value used for
a synthesized error event.  Note the error branch builds its REJECTED
event and counts it, but never stores it in `order_history`. -/
def ExecutionEngine.execute_approved_trade (eng : ExecutionEngine)
    (approved_trade : ApprovedTrade)
    (place_order_result : Except String OrderEvent)
    (execution_time : ℚ) (now : ℚ) : ExecOutcome :=
  if eng.status ≠ .IDLE then ⟨eng, [], []⟩
  else
    let signal := approved_trade.signal
    match place_order_result with
    | .ok order_event =>
      let stats1 := { eng.stats with
        total_execution_time := eng.stats.total_execution_time + execution_time }
      if order_event.status = .SUBMITTED then
        ⟨{ eng with
            status := .IDLE,
            stats := { stats1 with
              orders_submitted := stats1.orders_submitted + 1 },
            active_orders := dictSet eng.active_orders order_event.order_id
              ⟨order_event.broker_order_id, signal.id, signal.symbol,
                signal.side, signal.qty, order_event.timestamp, approved_trade⟩,
            order_history := dictSet eng.order_history order_event.order_id
              order_event },
          [], [order_event]⟩
      else
        ⟨{ eng with
            status := .IDLE,
            stats := { stats1 with
              orders_rejected := stats1.orders_rejected + 1 },
            order_history := dictSet eng.order_history order_event.order_id
              order_event },
          [], []⟩
    | .error e =>
      let error_order : OrderEvent :=
        { order_id := "error_" ++ signal.id, signal_id := signal.id,
          status := .REJECTED, timestamp := now,
          rejection_reason := some ("Execution error: " ++ e) }
      ⟨{ eng with
          status := .IDLE,
          stats := { eng.stats with
            orders_rejected := eng.stats.orders_rejected + 1 } },
        [error_order], []⟩

/-- A concrete signal behind the approved trade of the broker-error
scenario. -/
def c2_signal : TradeSignal := ⟨"sig-c2", "AAPL", .BUY, 1, 8/10, 0, none⟩

/-- C2 counterexample: on a fresh engine whose broker call raises
`"boom"`, the synthesized REJECTED event exists and the rejected counter
is incremented, but `order_history` stays empty — the synthesized event is
never recorded, contrary to the claim. -/
theorem C2_counterexample :
    (ExecutionEngine.init.execute_approved_trade ⟨c2_signal, .rule_results []⟩
        (.error "boom") 0 0).engine.order_history = [] ∧
    (ExecutionEngine.init.execute_approved_trade ⟨c2_signal, .rule_results []⟩
        (.error "boom") 0 0).synthesized =
      [⟨"error_sig-c2", "sig-c2", .REJECTED, 0, none, 0, none,
        some "Execution error: boom"⟩] ∧
    (ExecutionEngine.init.execute_approved_trade ⟨c2_signal, .rule_results []⟩
        (.error "boom") 0 0).engine.stats.orders_rejected = 1 := by
  refine ⟨rfl, ?_, rfl⟩
  simp [ExecutionEngine.execute_approved_trade, ExecutionEngine.init, c2_signal]

/-- C2 (amended): whenever the broker call inside `execute_approved_trade`
raises an error `e` on an IDLE engine, the engine synthesizes a REJECTED
`OrderEvent` with rejection reason `"Execution error: {e}"` and increments
`orders_rejected`, but does not record the synthesized event anywhere:
`order_history` (and `active_orders`) are unchanged, and the engine
returns to IDLE. -/
theorem C2_broker_error (eng : ExecutionEngine) (approved_trade : ApprovedTrade)
    (e : String) (execution_time now : ℚ) (h : eng.status = .IDLE) :
    (eng.execute_approved_trade approved_trade (.error e) execution_time
        now).synthesized =
      [⟨"error_" ++ approved_trade.signal.id, approved_trade.signal.id,
        .REJECTED, now, none, 0, none, some ("Execution error: " ++ e)⟩] ∧
    (eng.execute_approved_trade approved_trade (.error e) execution_time
        now).engine.stats.orders_rejected = eng.stats.orders_rejected + 1 ∧
    (eng.execute_approved_trade approved_trade (.error e) execution_time
        now).engine.order_history = eng.order_history ∧
    (eng.execute_approved_trade approved_trade (.error e) execution_time
        now).engine.active_orders = eng.active_orders ∧
    (eng.execute_approved_trade approved_trade (.error e) execution_time
        now).engine.status = .IDLE := by
  simp [ExecutionEngine.execute_approved_trade, h]

/-- C2 witness: the amended statement applied to the concrete fresh-engine
scenario. -/
theorem C2_broker_error_witness :
    (ExecutionEngine.init.execute_approved_trade ⟨c2_signal, .rule_results []⟩
        (.error "boom") 0 0).engine.order_history =
      ExecutionEngine.init.order_history :=
  (C2_broker_error ExecutionEngine.init ⟨c2_signal, .rule_results []⟩
    "boom" 0 0 rfl).2.2.1

end RefractTrade
